import Mathlib

/-!
Verification development for the AIModeProxy repository.

The repository has four Python source files:
  - google_ai_cli/ai_controller.py : the GoogleAIController class (completion
    detection over a live page and markup-to-markdown extraction),
  - google_ai_cli/google_ai_cli.py : the single-shot CLI around the controller,
  - google_ai_cli/config.py        : path and selector constants,
  - research_agent.py              : the search_google tool gateway and the
    ResearchAgent orchestration loop.

This file gives a shallow embedding of those parts and proves or refutes the
frozen claims about them.  Machine-level I/O (the live page, the subprocess,
the chat-completions server) is modelled by explicit outcome parameters; pure
computations are translated function by function from the source.
-/

/-- Models the Python `str.strip()` method (and the per-string stripping done
by BeautifulSoup `get_text(strip=True)`): drop leading and trailing
whitespace characters. -/
def pyStrip (s : String) : String :=
  ⟨((s.data.dropWhile Char.isWhitespace).reverse.dropWhile Char.isWhitespace).reverse⟩

/-- Boolean test that the first character list starts the second one. -/
def listPrefixOf : List Char → List Char → Bool
  | [], _ => true
  | _ :: _, [] => false
  | a :: as, b :: bs => a == b && listPrefixOf as bs

/-- Boolean test that the first character list occurs contiguously inside the
second one. -/
def listInfixOf (needle : List Char) : List Char → Bool
  | [] => listPrefixOf needle []
  | b :: bs => listPrefixOf needle (b :: bs) || listInfixOf needle bs

/-- Models the Python `needle in hay` substring containment test. -/
def strContains (hay needle : String) : Bool :=
  listInfixOf needle.data hay.data

namespace GoogleAIController

/-! Markup model.  `extract_response_as_markdown` reads the inner HTML of the
response container and parses it with BeautifulSoup.  The parsed tree is
modelled by `HNode`/`HForest`: a node is either a `NavigableString` or a
`Tag` with a name, a `class` attribute list, an optional `href` attribute and
children.  The input forest stands for the markup after the
`re.sub(r"Sv6Kpe\[.*?\]", "", ...)` noise-stripping step, which acts on the
raw string before structural parsing. -/

mutual
inductive HNode where
  | text (s : String)
  | elem (tag : String) (classes : List String) (href : Option String) (children : HForest)
inductive HForest where
  | nil
  | cons (head : HNode) (tail : HForest)
end

/-- Class discriminator of HEADING_SELECTOR (".otQkpb" from config.py) with
the leading dot stripped, as the code does with `.strip(".")`. -/
def HEADING_CLASS : String := "otQkpb"

/-- Class discriminator of PARAGRAPH_SELECTOR (".Y3BBE") with the dot stripped. -/
def PARAGRAPH_CLASS : String := "Y3BBE"

/-- Class discriminator of LIST_SELECTOR (".U6u95") with the dot stripped. -/
def LIST_CLASS : String := "U6u95"

mutual
/-- Models BeautifulSoup `element.get_text(strip=True)`: concatenate every
descendant string, each individually stripped. -/
def get_text_strip : HNode → String
  | .text s => pyStrip s
  | .elem _ _ _ cs => getTextStripForest cs

/-- Forest version of `get_text_strip`. -/
def getTextStripForest : HForest → String
  | .nil => ""
  | .cons c cs => get_text_strip c ++ getTextStripForest cs
end

mutual
/-- Models `GoogleAIController._parse_element_to_markdown`: recursively render
the contents of an element, wrapping bold, italic and link spans and recursing
into any other tag. -/
def parse_element_to_markdown : HNode → String
  | .text _ => ""
  | .elem _ _ _ cs => parse_contents cs

/-- Renders the `element.contents` iteration of `_parse_element_to_markdown`:
a `NavigableString` child contributes its raw text; a `b`/`strong` child
renders as `**text**` with `get_text(strip=True)`; `i`/`em` as `*text*`;
an `a` child as `[text](href)` with `href` defaulting to the empty string;
any other tag is recursed into. -/
def parse_contents : HForest → String
  | .nil => ""
  | .cons (.text s) rest => s ++ parse_contents rest
  | .cons (.elem tag _ href cs) rest =>
      (if tag = "b" ∨ tag = "strong" then "**" ++ getTextStripForest cs ++ "**"
       else if tag = "i" ∨ tag = "em" then "*" ++ getTextStripForest cs ++ "*"
       else if tag = "a" then "[" ++ getTextStripForest cs ++ "](" ++ href.getD "" ++ ")"
       else parse_contents cs)
      ++ parse_contents rest
end

/-- Boolean test of the combined CSS selector
`f"{HEADING_SELECTOR}, {PARAGRAPH_SELECTOR}, {LIST_SELECTOR}"`: the element
carries one of the three block classes. -/
def matchesBlockSelector (classes : List String) : Bool :=
  classes.contains HEADING_CLASS || classes.contains PARAGRAPH_CLASS ||
    classes.contains LIST_CLASS

/-- Models `soup.select(selectors)`: all elements of the tree whose class list
matches one of the three block selectors, in document (pre-)order.  CSS
selection is by class attribute, not tag name, and descends into every
element, matched or not. -/
def select_blocks : HForest → List HNode
  | .nil => []
  | .cons (.text _) rest => select_blocks rest
  | .cons (.elem tag cls href cs) rest =>
      (if matchesBlockSelector cls then [HNode.elem tag cls href cs] else [])
        ++ select_blocks cs ++ select_blocks rest

/-- Models `element.find_all("li", recursive=False)`: the direct children of
the element that are `li` tags, in order. -/
def find_direct_li : HForest → List HNode
  | .nil => []
  | .cons (.text _) rest => find_direct_li rest
  | .cons (.elem tag cls href cs) rest =>
      (if tag = "li" then [HNode.elem tag cls href cs] else []) ++ find_direct_li rest

/-- Strings appended to `markdown_output` for one selected element: a heading
block contributes one `"\n### ..."` line; a paragraph block the inline
rendering of its contents, stripped; a list block one `"* ..."` line per
direct `li` child followed by one empty separator string.  The branches are
tried in the if/elif order of the source. -/
def block_to_markdown (n : HNode) : List String :=
  match n with
  | .text _ => []
  | .elem _ cls _ cs =>
      if cls.contains HEADING_CLASS then ["\n### " ++ getTextStripForest cs ++ "\n"]
      else if cls.contains PARAGRAPH_CLASS then [pyStrip (parse_contents cs)]
      else if cls.contains LIST_CLASS then
        (find_direct_li cs).map (fun li => "* " ++ pyStrip (parse_element_to_markdown li))
          ++ [""]
      else []

/-- Models the `parsed_response` local of `extract_response_as_markdown`:
`"\n".join(markdown_output).strip()` over all selected blocks. -/
def parsed_response (html : HForest) : String :=
  pyStrip (String.intercalate "\n" ((select_blocks html).map block_to_markdown).flatten)

/-- Exception kinds named by the handlers of `extract_response_as_markdown`:
the structured-parsing `try` catches `(AttributeError, TypeError, IndexError)`
and the plain-text fallback `try` catches
`(PlaywrightTimeoutError, AttributeError)`. -/
inductive PyExc where
  | attributeError
  | typeError
  | indexError
  | playwrightTimeout
deriving DecidableEq

/-- Exception kinds caught by the outer `except (AttributeError, TypeError,
IndexError)` handler of `extract_response_as_markdown`. -/
def caughtByParseHandler (e : PyExc) : Bool :=
  match e with
  | .attributeError => true
  | .typeError => true
  | .indexError => true
  | .playwrightTimeout => false

/-- Exception kinds caught by the inner `except (PlaywrightTimeoutError,
AttributeError)` handler around the second `inner_text()` call. -/
def caughtByFallbackHandler (e : PyExc) : Bool :=
  match e with
  | .playwrightTimeout => true
  | .attributeError => true
  | .typeError => false
  | .indexError => false

/-- Models `GoogleAIController.extract_response_as_markdown`.  `html` is the
parsed markup of the response container; `parse_exc` injects an exception
raised inside the `try` body before `parsed_response` is computed (reading the
inner HTML or parsing it); `inner_text_1` is the outcome of the
`container.inner_text()` call taken when the structured output is empty;
`inner_text_2` is the outcome of the re-located `inner_text()` call inside the
`except` handler.  The result is `Except.error e` exactly when the Python
method lets exception `e` propagate to its caller. -/
def extract_response_as_markdown (html : HForest) (parse_exc : Option PyExc)
    (inner_text_1 inner_text_2 : Except PyExc String) : Except PyExc String :=
  let body : Except PyExc String :=
    match parse_exc with
    | some e => .error e
    | none =>
        if parsed_response html = "" then inner_text_1
        else .ok (parsed_response html)
  match body with
  | .ok s => .ok s
  | .error e =>
      if caughtByParseHandler e then
        match inner_text_2 with
        | .ok t => .ok t
        | .error f =>
            if caughtByFallbackHandler f then .ok "Error: Could not extract response."
            else .error f
      else .error e

/-! DOM stabilization strategy.  `wait_for_dom_stabilization` polls the text
of the last response container every 0.5 seconds for at most
`range(240)` iterations; `lens` is the sequence of observed text lengths,
one entry per poll. -/

/-- Poll state of `wait_for_dom_stabilization`: the `last_len` and
`stable_checks` locals. -/
structure DomState where
  last_len : Nat
  stable_checks : Nat
deriving DecidableEq

/-- One poll iteration on the observed length `len`: the counter is
incremented when `current_len > 0 and current_len == last_len`, and reset to
zero otherwise; `last_len` is updated to the observation either way. -/
def domStep (s : DomState) (len : Nat) : DomState :=
  if 0 < len ∧ len = s.last_len then ⟨len, s.stable_checks + 1⟩ else ⟨len, 0⟩

/-- Models the `for i in range(240)` loop: returns `some i` when the loop
returns at iteration `i` because `stable_checks` reached
`max_stable_checks = 6` (the threshold test is only reached in the increment
branch, where the updated counter is positive, so testing the stepped counter
is equivalent), and `none` when the iterations run out (the timeout warning
path). -/
def domRun : List Nat → DomState → Nat → Option Nat
  | [], _, _ => none
  | len :: rest, s, i =>
      let s2 := domStep s len
      if 6 ≤ s2.stable_checks then some i else domRun rest s2 (i + 1)

/-- Models `GoogleAIController.wait_for_dom_stabilization` on an observed
length sequence: at most 240 polls starting from `last_len = 0`,
`stable_checks = 0`. -/
def wait_for_dom_stabilization (lens : List Nat) : Option Nat :=
  domRun (lens.take 240) ⟨0, 0⟩ 0

/-- Poll state after processing the (at most 240) observations, disregarding
the early return: used to inspect the stability counter at a given sample. -/
def domStateAfter (lens : List Nat) : DomState :=
  (lens.take 240).foldl domStep ⟨0, 0⟩

/-! Network activity strategy.  `wait_for_response_completion` attaches the
`_response_handler` listener, waits for a first relevant network event (at
most 20 seconds, else it removes the listener and falls back to
`wait_for_dom_stabilization`), then waits for 3 seconds of inactivity or the
overall timeout, and removes the listener.  Time is modelled in 100 ms ticks
(the `wait_for_timeout(100)` granularity): the stream-start timeout is 200
ticks, the quiet period 30 ticks, and `timeoutTicks` is the `timeout`
argument in ticks.  `events t` states that a response event whose URL matches
`"/async/"` arrives during tick `t`. -/

/-- Exit paths of `wait_for_response_completion`. -/
inductive NetExitPath where
  | quiesced
  | overallTimeout
  | fallbackDom
deriving DecidableEq

/-- Result of `wait_for_response_completion`: which exit path was taken and
whether the `_response_handler` listener is still attached on return. -/
structure NetResult where
  path : NetExitPath
  listenerAttached : Bool

/-- Outcome of the first `while not self._streaming_detected` loop. -/
inductive StreamStart where
  | started (lastActivity t : Nat)
  | neverStarted

/-- Models the first loop of `wait_for_response_completion`: each iteration
checks the `_streaming_detected` flag set by the handler, then the 20 second
stream-start bound, then sleeps one tick during which an event may arrive
(setting the flag and `_last_network_activity`). -/
def awaitStartLoop (events : Nat → Bool) (t : Nat) (detected : Bool)
    (lastActivity : Nat) : StreamStart :=
  if detected then .started lastActivity t
  else if _h : 200 < t then .neverStarted
  else awaitStartLoop events (t + 1) (events t) (if events t then t else lastActivity)
termination_by 201 - t
decreasing_by omega

/-- Models the second loop of `wait_for_response_completion`: continue while
less than 3 seconds (30 ticks) have passed since the last relevant event,
breaking out when the overall timeout is exceeded; each tick an event may
refresh `_last_network_activity`. -/
def streamingLoop (events : Nat → Bool) (timeoutTicks lastActivity t : Nat) : NetExitPath :=
  if 30 ≤ t - lastActivity then .quiesced
  else if _h : timeoutTicks < t then .overallTimeout
  else streamingLoop events timeoutTicks (if events t then t else lastActivity) (t + 1)
termination_by timeoutTicks + 1 - t
decreasing_by omega

/-- Models `GoogleAIController.wait_for_response_completion`: attach the
response listener, run the stream-start loop, on its timeout remove the
listener and fall back to DOM stabilization, otherwise run the idle loop and
remove the listener after it exits (by quiescence or by overall timeout). -/
def wait_for_response_completion (events : Nat → Bool) (timeoutTicks : Nat) : NetResult :=
  match awaitStartLoop events 0 false 0 with
  | .neverStarted =>
      -- `remove_listener` is called, then `wait_for_dom_stabilization()`.
      { path := .fallbackDom, listenerAttached := false }
  | .started lastActivity t =>
      let p := streamingLoop events timeoutTicks lastActivity t
      -- `remove_listener` is called after the idle loop on both of its exits.
      { path := p, listenerAttached := false }

end GoogleAIController

namespace GoogleAICli

/-- Method names defined on the `GoogleAIController` class in
ai_controller.py. -/
def googleAIControllerMethods : List String :=
  ["_response_handler", "wait_for_response_completion", "wait_for_dom_stabilization",
   "_parse_element_to_markdown", "extract_response_as_markdown", "new_chat"]

/-- Environment outcomes of the single-shot `prompt` flow of
google_ai_cli.py: whether navigation succeeds, whether the response container
selector becomes visible within its 90 second bound, and the text that
`extract_response_as_markdown` would produce. -/
structure PromptEnv where
  navigationOk : Bool
  containerAppears : Bool
  extractedText : String

/-- Models the `prompt` branch of `main` in google_ai_cli.py after argument
parsing succeeded with a nonempty prompt text.  The result is the process
exit code together with the lines written to standard output.  Navigation or
selector failures raise `PlaywrightTimeoutError`, handled by `sys.exit(1)`.
Otherwise the code calls `controller.wait_for_response_stabilization()`: the
method lookup is modelled by membership in `googleAIControllerMethods`, and a
failed lookup raises `AttributeError`, which falls to the generic
`except Exception` handler and `sys.exit(1)`. -/
def mainPromptCommand (text : String) (env : PromptEnv) : Nat × List String :=
  let _ := text  -- the prompt text only feeds the navigation URL
  if !env.navigationOk then (1, [])
  else if !env.containerAppears then (1, [])
  else if googleAIControllerMethods.contains "wait_for_response_stabilization" then
    (0, [env.extractedText])
  else (1, [])

end GoogleAICli

namespace ResearchAgent

/-! Tool gateway.  `search_google` runs the CLI as a subprocess with
`check=True` and `timeout=180` and converts each failure mode to a returned
diagnostic string. -/

/-- Outcome of the `subprocess.run` delegation inside `search_google`: the
process completed with an exit code and its output channels, or the script
was not found (`FileNotFoundError`), or the 180 second timeout expired
(`subprocess.TimeoutExpired`). -/
inductive SubprocessOutcome where
  | completed (returncode : Int) (stdout : String) (stderr : String)
  | fileNotFound
  | timedOut
deriving DecidableEq

/-- Path constant `GOOGLE_AI_CLI_PATH` of research_agent.py. -/
def GOOGLE_AI_CLI_PATH : String := "google_ai_cli/google_ai_cli.py"

/-- Models the module-level `search_google` function of research_agent.py.
With `check=True`, a nonzero exit code raises `CalledProcessError`, caught
and turned into a diagnostic that embeds the stripped stderr;
`FileNotFoundError` and `TimeoutExpired` are caught and turned into their own
diagnostics; a zero exit code returns the stripped stdout. -/
def search_google (query : String) (outcome : SubprocessOutcome) : String :=
  let _ := query  -- the query only feeds the subprocess command line
  match outcome with
  | .completed rc stdout stderr =>
      if rc ≠ 0 then
        "Error: The search script failed with exit code " ++ toString rc ++
          ".\nStderr: " ++ pyStrip stderr
      else pyStrip stdout
  | .fileNotFound =>
      "Error: The script \x27" ++ GOOGLE_AI_CLI_PATH ++ "\x27 was not found."
  | .timedOut =>
      "Error: The search script timed out after 180 seconds."

/-! Orchestrator data model. -/

/-- One JSON value as far as `_execute_tool_call` distinguishes them: the
code passes `args.get("query")` to `search_google`, whose
`subprocess.run` command line accepts a string and raises `TypeError` on
anything else, so the model separates string values from every other JSON
value (null, boolean, number, array, nested object), kept with a rendering
of the value. -/
inductive JsonValue where
  | str (s : String)
  | other (rendering : String)
deriving DecidableEq

/-- Raw argument payload of a tool call record, split by what `json.loads`
does with it: it raises `JSONDecodeError` (`malformed`), or succeeds with a
value that is not an object — `"null"`, `"[1]"`, `"42"`, a quoted string —
on which the later `args.get` attribute lookup raises `AttributeError`
(`nonObject`), or succeeds with an object and its fields (`parsed`; an
absent `query` key gives Python `None`, modelled by a failed lookup). -/
inductive ArgPayload where
  | malformed (raw : String)
  | nonObject (raw : String)
  | parsed (fields : List (String × JsonValue))
deriving DecidableEq

/-- One tool call record emitted by the model: identifier, function name and
raw argument payload. -/
structure ToolCallRec where
  id : String
  fname : String
  arguments : ArgPayload
deriving DecidableEq

/-- One reply of the chat-completions capability: optional text content and
zero or more tool call records. -/
structure AIMessage where
  content : Option String
  tool_calls : List ToolCallRec
deriving DecidableEq

/-- One turn of the conversation history. -/
inductive Turn where
  | system (content : String)
  | user (content : String)
  | assistant (msg : AIMessage)
  | tool (tool_call_id : String) (fname : String) (content : String)
deriving DecidableEq

/-- Mutable state of a `ResearchAgent` run, instrumented with the list of
tool gateway invocations and the counts of chat-completions requests
(`aiCalls` in total, `synthCalls` of them tool-free). -/
structure AgentSt where
  conversation_history : List Turn
  research_data : List (String × String)
  gatewayCalls : List String
  aiCalls : Nat
  synthCalls : Nat
deriving DecidableEq

/-- Exception kinds that escape `_execute_tool_call` uncaught (its only
handler is `except json.JSONDecodeError`): the `AttributeError` raised by
`args.get` on a non-object payload, and the `TypeError` raised inside
`subprocess.run` when the dispatched query is `None` or not a string. -/
inductive PyError where
  | attributeError
  | typeError
deriving DecidableEq

/-- Names registered in `self.tool_map`. -/
def toolMapNames : List String := ["search_google"]

/-- Result of an orchestrator run: the returned report (the `content` field
of the synthesis reply, which may be absent) and the final agent state. -/
structure RunOutput where
  report : Option String
  final : AgentSt
deriving DecidableEq

/-- Ways `ResearchAgent.run` aborts instead of returning a report: the fatal
connectivity failures `_call_ai` re-raises (`openai.APIConnectionError`,
`openai.APIStatusError`; in the scripted model, an exhausted reply script),
and an uncaught Python exception escaping `_execute_tool_call`. -/
inductive RunAbort where
  | connectionError
  | uncaught (e : PyError)
deriving DecidableEq

/-- Models `ResearchAgent._execute_tool_call`.  `search` is the registered
tool function (the gateway), total on string queries (claim C4).  A payload
rejected by `json.loads` appends a tool turn with the invalid-arguments
diagnostic (the only caught exception); a payload parsing to a non-object
raises `AttributeError` at `args.get("query")`, uncaught; a parsed object
checks `func_name` against `tool_map` — an unknown name appends a tool turn
with the unknown-tool diagnostic (no dispatch, so no crash whatever the
query holds), while the registered name dispatches
`tool_function(query=query)`: a string query records the research entry, the
gateway invocation and the tool turn, and a missing (`None`) or non-string
query raises `TypeError` inside `subprocess.run`, uncaught. -/
def execute_tool_call (search : String → String) (st : AgentSt)
    (tc : ToolCallRec) : Except PyError AgentSt :=
  match tc.arguments with
  | .parsed fields =>
      let query := fields.lookup "query"
      if toolMapNames.contains tc.fname then
        match query with
        | some (.str q) =>
            let result := search q
            .ok { st with
                    research_data := st.research_data ++ [(q, result)],
                    gatewayCalls := st.gatewayCalls ++ [q],
                    conversation_history := st.conversation_history ++
                      [.tool tc.id tc.fname result] }
        | _ => .error .typeError
      else
        .ok { st with
                conversation_history := st.conversation_history ++
                  [.tool tc.id tc.fname ("Error: Unknown tool \x27" ++ tc.fname ++ "\x27.")] }
  | .nonObject _ => .error .attributeError
  | .malformed _ =>
      .ok { st with
              conversation_history := st.conversation_history ++
                [.tool tc.id tc.fname "Error: Invalid arguments format."] }

/-- Models the `for tool_call in ai_response.tool_calls` loop of
`ResearchAgent.run`: each record of the reply is executed in order, and an
exception raised by one record aborts the loop (and the run) before the
remaining records. -/
def process_tool_calls (search : String → String) (st : AgentSt) :
    List ToolCallRec → Except PyError AgentSt
  | [] => .ok st
  | tc :: rest =>
      match execute_tool_call search st tc with
      | .ok st2 => process_tool_calls search st2 rest
      | .error e => .error e

/-- System prompt of `ResearchAgent.run`. -/
def system_prompt : String :=
  "You are an expert research assistant. Your goal is to gather " ++
  "comprehensive information about the user\x27s topic. " ++
  "Think step-by-step. First, formulate a search query to start. " ++
  "Then, use the `search_google` tool to find information. " ++
  "Analyze the results, and decide if you need more information. " ++
  "If so, formulate a new, more specific query to dig deeper or explore a new angle. " ++
  "When you are confident you have enough information to write a detailed report, " ++
  "respond with the final message \x27RESEARCH_COMPLETE\x27 and nothing else."

/-- System prompt of `ResearchAgent._generate_final_report` (the two-section
report contract sent with the serialized research entries). -/
def report_prompt : String :=
  "You are a report writing expert. You have been provided with a series of " ++
  "research queries and their corresponding results in JSON format. " ++
  "Your task is to synthesize all of this information into a single, " ++
  "well-structured report. The report must follow this format exactly:\n\n" ++
  "1.  **TL;DR:** A brief, concise summary (2-4 sentences) of the most " ++
  "critical findings.\n" ++
  "2.  **Detailed Findings:** A comprehensive section that elaborates on the " ++
  "information discovered. Use markdown for formatting (e.g., headings, " ++
  "bullet points) to organize the content clearly. Synthesize information from " ++
  "different searches where appropriate."

/-- Models `ResearchAgent._generate_final_report`.  With no research entries
it returns the fixed message without any model call; otherwise it issues one
tool-free request (built from `report_prompt` and the serialized entries, not
from the conversation history) whose reply is the next scripted message, and
returns its content verbatim. -/
def generate_final_report (script : List AIMessage) (st : AgentSt) :
    Except RunAbort RunOutput :=
  if st.research_data.isEmpty then
    .ok { report := some "No research was conducted. Could not generate a report.",
          final := st }
  else
    match script with
    | [] => .error .connectionError
    | m :: _ =>
        .ok { report := m.content,
              final := { st with aiCalls := st.aiCalls + 1, synthCalls := st.synthCalls + 1 } }

/-- Models the `for i in range(max_iterations)` loop of `ResearchAgent.run`.
Each iteration sends the history (with tools) and appends the reply; a reply
with tool calls executes each of them and continues (an uncaught exception
from a record aborting the whole run); a reply whose text contains the
`RESEARCH_COMPLETE` sentinel stops and synthesizes; any other reply is an
implicit stop with the same synthesis; an exhausted bound falls through to
synthesis. -/
def runLoop (search : String → String) :
    Nat → List AIMessage → AgentSt → Except RunAbort RunOutput
  | 0, script, st => generate_final_report script st
  | _ + 1, [], _ => .error .connectionError
  | fuel + 1, m :: rest, st =>
      let st1 : AgentSt :=
        { st with
            aiCalls := st.aiCalls + 1,
            conversation_history := st.conversation_history ++ [.assistant m] }
      if m.tool_calls.isEmpty = false then
        match process_tool_calls search st1 m.tool_calls with
        | .ok st2 => runLoop search fuel rest st2
        | .error e => .error (.uncaught e)
      else if strContains (m.content.getD "") "RESEARCH_COMPLETE" then
        generate_final_report rest st1
      else
        generate_final_report rest st1

/-- Models `ResearchAgent.run` on a scripted chat-completions capability:
`script` is the ordered list of replies the capability returns, `search` is
the gateway function behind `tool_map`.  The history is seeded with the
system instruction and the user turn naming the topic. -/
def run (search : String → String) (script : List AIMessage)
    (topic : String) (max_iterations : Nat) : Except RunAbort RunOutput :=
  runLoop search max_iterations script
    { conversation_history :=
        [.system system_prompt, .user ("Please research the following topic: " ++ topic)],
      research_data := [], gatewayCalls := [], aiCalls := 0, synthCalls := 0 }

/-- Stated from the amended claim, for comparison with `execute_tool_call`:
what one tool-call record does, described as an effect — either the appended
tool-result turn together with the gateway invocations and research entries
it causes, or an uncaught exception. -/
inductive SpecToolOutcome where
  | appended (turn : Turn) (gatewayQueries : List String)
      (researchEntries : List (String × String))
  | raisesUncaught (e : PyError)
deriving DecidableEq

/-- Stated from the amended claim, sentence by sentence: a malformed payload
appends the invalid-arguments turn with no gateway invocation and no entry;
a non-object payload raises AttributeError; with a parsed object, an
unrecognized function name appends only the unknown-tool turn, the
registered tool with a string query appends the gateway invocation, the
research entry and the result turn carrying the call identifier, and the
registered tool with a missing or non-string query raises TypeError. -/
def specToolEffect (search : String → String) (tc : ToolCallRec) : SpecToolOutcome :=
  match tc.arguments with
  | .malformed _ =>
      .appended (.tool tc.id tc.fname "Error: Invalid arguments format.") [] []
  | .nonObject _ => .raisesUncaught .attributeError
  | .parsed fields =>
      if toolMapNames.contains tc.fname then
        match fields.lookup "query" with
        | some (.str q) => .appended (.tool tc.id tc.fname (search q)) [q] [(q, search q)]
        | _ => .raisesUncaught .typeError
      else
        .appended (.tool tc.id tc.fname ("Error: Unknown tool \x27" ++ tc.fname ++ "\x27."))
          [] []

/-- Stated from the amended claim: the combined effect of the records of one
reply, in order, the first raising record aborting the rest — the appended
turns, gateway invocations and research entries are concatenated in record
order. -/
def specReplyEffect (search : String → String) :
    List ToolCallRec → Except PyError (List Turn × List String × List (String × String))
  | [] => .ok ([], [], [])
  | tc :: rest =>
      match specToolEffect search tc with
      | .raisesUncaught e => .error e
      | .appended t g r =>
          match specReplyEffect search rest with
          | .error e => .error e
          | .ok (ts, gs, rs) => .ok (t :: ts, g ++ gs, r ++ rs)

end ResearchAgent

open GoogleAIController GoogleAICli ResearchAgent

/-! Helper lemmas. -/

/-- Helper: on an all-zero observation sequence the polling loop never
returns early, from any starting state. -/
theorem domRun_all_zero (lens : List Nat) (s : DomState) (i : Nat)
    (h : ∀ l ∈ lens, l = 0) : domRun lens s i = none := by
  induction lens generalizing s i with
  | nil => rfl
  | cons a rest ih =>
      have ha : a = 0 := h a (List.mem_cons_self a rest)
      subst ha
      simp only [domRun, domStep]
      simp only [Nat.lt_irrefl, false_and, if_false]
      simpa using ih ⟨0, 0⟩ (i + 1) fun l hl => h l (List.mem_cons_of_mem _ hl)

/-- Helper: folding the poll step over all-zero observations keeps the
stability counter at zero. -/
theorem foldl_domStep_zero (lens : List Nat) (s : DomState)
    (h : ∀ l ∈ lens, l = 0) (hs : s.stable_checks = 0) :
    (lens.foldl domStep s).stable_checks = 0 := by
  induction lens generalizing s with
  | nil => exact hs
  | cons a rest ih =>
      have ha : a = 0 := h a (List.mem_cons_self a rest)
      subst ha
      simp only [List.foldl_cons]
      exact ih (domStep s 0) (fun l hl => h l (List.mem_cons_of_mem _ hl)) (by simp [domStep])

/-- Helper: one `execute_tool_call` step realizes exactly the effect the
amended claim describes for its record — the appended turn, gateway
invocations and research entries on the non-raising branches, the uncaught
exception otherwise, and the call counters untouched. -/
theorem execute_tool_call_effect (search : String → String) (st : AgentSt)
    (tc : ToolCallRec) :
    execute_tool_call search st tc =
      match specToolEffect search tc with
      | .appended t g r =>
          .ok { st with
                  conversation_history := st.conversation_history ++ [t],
                  gatewayCalls := st.gatewayCalls ++ g,
                  research_data := st.research_data ++ r }
      | .raisesUncaught e => .error e := by
  obtain ⟨tid, fname, args⟩ := tc
  cases args with
  | parsed fields =>
      by_cases hmem : fname ∈ toolMapNames
      · cases hq : fields.lookup "query" with
        | none => simp [execute_tool_call, specToolEffect, hmem, hq]
        | some v => cases v <;> simp [execute_tool_call, specToolEffect, hmem, hq]
      · simp [execute_tool_call, specToolEffect, hmem]
  | nonObject raw => simp [execute_tool_call, specToolEffect]
  | malformed raw => simp [execute_tool_call, specToolEffect]

/-! Claim theorems. -/

/-- C5 (confirmed): with the observed length sequence [5,5,5,5,5,5,10] and
stability threshold 6, the DOM strategy does not settle at sample 6 (the
counter is only 5 there), the counter is reset to zero by sample 7, and
counting restarts from there (six further repeats of length 10 settle at
sample 13, index 12). -/
theorem dom_growth_resets_stability :
    wait_for_dom_stabilization [5, 5, 5, 5, 5, 5, 10] = none ∧
      (domStateAfter [5, 5, 5, 5, 5, 5]).stable_checks = 5 ∧
      (domStateAfter [5, 5, 5, 5, 5, 5, 10]).stable_checks = 0 ∧
      wait_for_dom_stabilization [5, 5, 5, 5, 5, 5, 10, 10, 10, 10, 10, 10, 10] = some 12 := by
  decide

/-- C10 (confirmed): a zero-length observation never increments the
stability counter (the increment guard requires `current_len > 0`), so a run
whose text stays empty never settles and exits only by exhausting the 240
polling iterations. -/
theorem dom_empty_text_never_settles (lens : List Nat) (h : ∀ l ∈ lens, l = 0) :
    wait_for_dom_stabilization lens = none ∧ (domStateAfter lens).stable_checks = 0 := by
  refine ⟨domRun_all_zero _ _ _ ?_, foldl_domStep_zero _ _ ?_ rfl⟩ <;>
    exact fun l hl => h l (List.take_subset _ _ hl)

/-- Witness for C10 at the concrete all-zero sequence [0,0,0,0,0,0,0,0]. -/
theorem dom_empty_text_never_settles_witness :
    wait_for_dom_stabilization [0, 0, 0, 0, 0, 0, 0, 0] = none ∧
      (domStateAfter [0, 0, 0, 0, 0, 0, 0, 0]).stable_checks = 0 :=
  dom_empty_text_never_settles [0, 0, 0, 0, 0, 0, 0, 0] (by decide)

/-- C9 (confirmed): whichever exit path `wait_for_response_completion` takes
(quiescence, fallback to DOM stabilization after the stream-start timeout, or
overall timeout), the response listener is removed before returning. -/
theorem network_wait_always_unsubscribes (events : Nat → Bool) (timeoutTicks : Nat) :
    (wait_for_response_completion events timeoutTicks).listenerAttached = false := by
  cases h : awaitStartLoop events 0 false 0 <;>
    simp [wait_for_response_completion, h]

/-- C2 (code_bug): the `prompt` flow of google_ai_cli.py never exits zero and
never writes the extracted response: line 100 calls
`controller.wait_for_response_stabilization()`, a method `GoogleAIController`
does not define, so every run raises `AttributeError` and exits 1 through the
generic exception handler — contradicting the claimed wait-extract-print
success path. -/
theorem prompt_command_always_exits_one (text : String) (env : PromptEnv) :
    mainPromptCommand text env = (1, []) := by
  unfold mainPromptCommand
  cases h1 : env.navigationOk <;> cases h2 : env.containerAppears <;>
    simp [h1, h2] <;> decide

/-- C4 (confirmed): `search_google` is total over the delegated-process
outcomes and maps each failure to a returned diagnostic string: script not
found, nonzero exit code (with the stripped stderr embedded in the
diagnostic), and the 180 second timeout; on a zero exit code it returns the
stripped stdout. -/
theorem search_google_returns_diagnostics (query : String) (outcome : SubprocessOutcome) :
    (outcome = .fileNotFound →
        search_google query outcome =
          "Error: The script \x27google_ai_cli/google_ai_cli.py\x27 was not found.") ∧
      (∀ rc stdout stderr, outcome = .completed rc stdout stderr → rc ≠ 0 →
        search_google query outcome =
          "Error: The search script failed with exit code " ++ toString rc ++
            ".\nStderr: " ++ pyStrip stderr) ∧
      (outcome = .timedOut →
        search_google query outcome = "Error: The search script timed out after 180 seconds.") ∧
      (∀ stdout stderr, outcome = .completed 0 stdout stderr →
        search_google query outcome = pyStrip stdout) := by
  refine ⟨?_, ?_, ?_, ?_⟩ <;> intros <;> subst_vars <;> simp [search_google, *] <;> decide

/-- Witness for C4 at a concrete nonzero-exit outcome. -/
theorem search_google_returns_diagnostics_witness :
    search_google "q" (.completed 1 "" " boom \n") =
      "Error: The search script failed with exit code 1.\nStderr: boom" :=
  (search_google_returns_diagnostics "q" (.completed 1 "" " boom \n")).2.1 1 "" " boom \n" rfl
    (by decide)

/-- C6 (confirmed): with `max_iterations = 0` the loop body never runs, no
research entries exist, and `run` returns the fixed no-research message with
zero chat-completions calls and zero gateway invocations. -/
theorem run_zero_iterations_no_calls (search : String → String)
    (script : List AIMessage) (topic : String) :
    (run search script topic 0).map
        (fun o => (o.report, o.final.aiCalls, o.final.synthCalls, o.final.gatewayCalls)) =
      .ok (some "No research was conducted. Could not generate a report.", 0, 0, []) := rfl

/-- C3 (confirmed): on a scripted model whose first reply carries exactly one
tool call of the registered tool and whose second reply contains the sentinel,
`run` with `max_iterations ≥ 2` performs exactly one gateway invocation and
exactly one tool-free synthesis call, and returns the synthesis reply content
verbatim (three chat calls in total: two loop iterations plus synthesis). -/
theorem run_one_tool_call_then_sentinel (search : String → String)
    (topic : String) (c1 : Option String) (tcid : String)
    (fields : List (String × JsonValue)) (q : String)
    (hq : fields.lookup "query" = some (.str q)) (c2 : String)
    (hc2 : strContains c2 "RESEARCH_COMPLETE" = true)
    (synContent : Option String) (rest : List AIMessage) (k : Nat) :
    (run search
        (⟨c1, [⟨tcid, "search_google", .parsed fields⟩]⟩ ::
          ⟨some c2, []⟩ :: ⟨synContent, []⟩ :: rest) topic (k + 2)).map
        (fun o => (o.report, o.final.gatewayCalls, o.final.synthCalls, o.final.aiCalls)) =
      .ok (synContent, [q], 1, 3) := by
  simp [run, runLoop, process_tool_calls, execute_tool_call, toolMapNames,
    generate_final_report, hq, hc2, Except.map]

/-- Witness for C3 with a concrete scripted model and gateway. -/
theorem run_one_tool_call_then_sentinel_witness :
    (run (fun _ => "RESULT")
        [⟨none, [⟨"call_1", "search_google", .parsed [("query", .str "llm agents")]⟩]⟩,
          ⟨some "RESEARCH_COMPLETE", []⟩, ⟨some "the report", []⟩] "llm agents" 2).map
        (fun o => (o.report, o.final.gatewayCalls, o.final.synthCalls, o.final.aiCalls)) =
      .ok (some "the report", ["llm agents"], 1, 3) :=
  run_one_tool_call_then_sentinel (fun _ => "RESULT") "llm agents" none "call_1"
    [("query", .str "llm agents")] "llm agents" rfl "RESEARCH_COMPLETE" (by decide)
    (some "the report") [] 0

/-- C7 counterexample: the claim quantifies over every record whose payload
parses, but a parsed payload naming an unregistered function (here "foo",
with a perfectly well-formed string query) causes no gateway invocation and
no research entry — the code appends an unknown-tool turn instead. -/
theorem execute_tool_call_unknown_function_counterexample :
    ¬ ∀ (search : String → String) (st : AgentSt) (tc : ToolCallRec)
        (fields : List (String × JsonValue)) (q : String),
        tc.arguments = .parsed fields → fields.lookup "query" = some (.str q) →
        ∃ st2, execute_tool_call search st tc = .ok st2 ∧
          st2.gatewayCalls = st.gatewayCalls ++ [q] ∧
          st2.research_data = st.research_data ++ [(q, search q)] := by
  intro h
  obtain ⟨st2, hok, hg, -⟩ := h (fun _ => "result") ⟨[], [], [], 0, 0⟩
      ⟨"call_1", "foo", .parsed [("query", .str "x")]⟩ [("query", .str "x")] "x" rfl rfl
  simp [execute_tool_call, toolMapNames] at hok
  subst hok
  simp at hg

/-- C7 (corrected): processing the tool calls of one reply realizes, record
by record and in order, exactly the effects the amended claim describes — a
malformed payload appends only the invalid-arguments turn; a non-object
payload aborts with uncaught AttributeError; a parsed object with an unknown
function name appends only the unknown-tool turn; the registered tool with a
string query appends the gateway invocation, the research entry and the
result turn carrying the call identifier; the registered tool with a missing
or non-string query aborts with uncaught TypeError; the first raising record
aborts the rest and the call counters are never touched. -/
theorem process_tool_calls_in_order (search : String → String)
    (st : AgentSt) (tcs : List ToolCallRec) :
    process_tool_calls search st tcs =
      match specReplyEffect search tcs with
      | .ok (ts, gs, rs) =>
          .ok { st with
                  conversation_history := st.conversation_history ++ ts,
                  gatewayCalls := st.gatewayCalls ++ gs,
                  research_data := st.research_data ++ rs }
      | .error e => .error e := by
  induction tcs generalizing st with
  | nil => simp [process_tool_calls, specReplyEffect]
  | cons tc rest ih =>
      simp only [process_tool_calls, specReplyEffect]
      rw [execute_tool_call_effect]
      cases h : specToolEffect search tc with
      | raisesUncaught e => simp
      | appended t g r =>
          simp only []
          rw [ih]
          cases h2 : specReplyEffect search rest with
          | error e => simp
          | ok triple =>
              obtain ⟨ts, gs, rs⟩ := triple
              simp [List.append_assoc]

/-- C8 (confirmed): when structural block classification yields nothing (the
joined structured output is empty), the extractor returns exactly what the
plain-text read of the region produces. -/
theorem extract_zero_blocks_plain_text (html : HForest) (t : String)
    (it2 : Except PyExc String) (h : parsed_response html = "") :
    extract_response_as_markdown html none (.ok t) it2 = .ok t := by
  simp [extract_response_as_markdown, h]

/-- Witness for C8 on an empty markup forest. -/
theorem extract_zero_blocks_plain_text_witness :
    extract_response_as_markdown HForest.nil none (.ok "flat text") (.ok "") =
      .ok "flat text" :=
  extract_zero_blocks_plain_text HForest.nil "flat text" (.ok "") (by decide)

/-- C1 counterexample: the extractor can propagate an exception.  On markup
with zero classified blocks the code returns `container.inner_text()` from
inside a `try` that only catches `(AttributeError, TypeError, IndexError)`;
a `PlaywrightTimeoutError` raised there (the very kind the second fallback
handler guards against) escapes to the caller instead of degrading to the
sentinel. -/
theorem extract_totality_counterexample :
    ¬ ∀ (html : HForest) (parse_exc : Option PyExc) (it1 it2 : Except PyExc String),
        (extract_response_as_markdown html parse_exc it1 it2).isOk = true := by
  intro h
  exact absurd (h HForest.nil none (.error .playwrightTimeout) (.ok "")) (by decide)

/-- C1 (corrected): the fallback chain holds for the failure kinds the
handlers name — nonempty structured output is returned as such; with empty
structured output a successful plain-text read is returned; a parse failure
of a caught kind (AttributeError, TypeError, IndexError) degrades to the
second plain-text read, and if that read fails with a caught kind
(PlaywrightTimeoutError, AttributeError) the sentinel string is returned —
but a PlaywrightTimeoutError raised by the plain-text read on the
zero-blocks path propagates to the caller. -/
theorem extract_fallback_chain (html : HForest) (it1 it2 : Except PyExc String) :
    (parsed_response html ≠ "" →
        extract_response_as_markdown html none it1 it2 = .ok (parsed_response html)) ∧
      (∀ t, parsed_response html = "" → it1 = .ok t →
        extract_response_as_markdown html none it1 it2 = .ok t) ∧
      (∀ e t, caughtByParseHandler e = true → it2 = .ok t →
        extract_response_as_markdown html (some e) it1 it2 = .ok t) ∧
      (∀ e f, caughtByParseHandler e = true → it2 = .error f →
          caughtByFallbackHandler f = true →
        extract_response_as_markdown html (some e) it1 it2 =
          .ok "Error: Could not extract response.") ∧
      (parsed_response html = "" →
        extract_response_as_markdown html none (.error .playwrightTimeout) it2 =
          .error .playwrightTimeout) := by
  refine ⟨?_, ?_, ?_, ?_, ?_⟩
  · intro h
    simp [extract_response_as_markdown, h]
  · intro t h h1
    simp [extract_response_as_markdown, h, h1]
  · intro e t he h2
    simp [extract_response_as_markdown, he, h2]
  · intro e f he h2 hf
    simp [extract_response_as_markdown, he, h2, hf]
  · intro h
    simp [extract_response_as_markdown, h, caughtByParseHandler]

/-- Witness for C1 exercising the third tier: a caught parse failure whose
plain-text retry fails with a caught kind returns the sentinel. -/
theorem extract_fallback_chain_witness :
    extract_response_as_markdown HForest.nil (some .attributeError) (.ok "x")
        (.error .playwrightTimeout) =
      .ok "Error: Could not extract response." :=
  (extract_fallback_chain HForest.nil (.ok "x") (.error .playwrightTimeout)).2.2.2.1
    .attributeError .playwrightTimeout (by decide) rfl (by decide)

